import Mathlib

/-!
Verification development for the RepoMind code ingestion and retrieval
pipeline.  The definitions below are a shallow embedding of the Python
sources (src/config.py, src/retrieval.py, src/ingestion.py): pure string
and list manipulation is translated directly, filesystem and model calls
are abstracted as explicit parameters, and Python exceptions become an
explicit error type threaded through `Except`.
-/

/-- Python exception values as they matter to this program: the code
distinguishes `ValueError`, `KeyError`, and all remaining exception classes
(caught by bare `except Exception`).  The payload is the message `str(e)`. -/
inductive PyErr where
  | valueError (msg : String)
  | keyError (msg : String)
  | otherError (msg : String)
deriving DecidableEq

/-- Python str(e) for an exception: its message. -/
def pyStr : PyErr → String
  | .valueError m => m
  | .keyError m => m
  | .otherError m => m

/-- Characters stripped by Python `str.strip()` with no argument (the ASCII
whitespace characters; the query strings and extensions this program handles
are ASCII). -/
def isPySpace (c : Char) : Bool :=
  c = ' ' || c = '\t' || c = '\n' || c = '\r' || c = '\x0b' || c = '\x0c'

/-- Python `s.strip()`: remove leading and trailing whitespace. -/
def pyStripChars (l : List Char) : List Char :=
  ((l.dropWhile isPySpace).reverse.dropWhile isPySpace).reverse

/-- Retrieved chunk node (llama-index node, reduced to its text). -/
structure Node where
  text : String
deriving DecidableEq

-- src/config.py, retrieval configs

/-- config.TOP_K (src/config.py line 21). -/
def TOP_K : Nat := 15

/-- config.RERANK_TOP_K (src/config.py line 22). -/
def RERANK_TOP_K : Nat := 5

/-- config.RERANK_MODEL (src/config.py line 27). -/
def RERANK_MODEL : String := "cross-encoder/ms-marco-MiniLM-L-6-v2"

-- src/retrieval.py

/-- The truth value of Python `not query_text or not query_text.strip()`
(src/retrieval.py line 81). -/
def queryInvalid (q : String) : Bool :=
  q.data.isEmpty || (pyStripChars q.data).isEmpty

/-- The assignment `initial_k = top_k * 2 if rerank else top_k` (src/retrieval.py line 94). -/
def searchInitialK (topK : Nat) (rerank : Bool) : Nat :=
  if rerank then topK * 2 else topK

/-- Model of `Retriever.search` (src/retrieval.py lines 67-119).  The vector store
access (`VectorIndexRetriever.retrieve`, which receives
`similarity_top_k = initial_k`) is abstracted as `retrieveFn`, and the
cross-encoder rerank pass (`self.reranker.postprocess_nodes`) as `rerankFn`;
`useReranker` is the `self.use_reranker` flag, and the `top_k`/`rerank`
keyword arguments default (`None`) to `TOP_K` and `use_reranker`. -/
def search (retrieveFn : Nat → String → List Node)
    (rerankFn : String → List Node → List Node)
    (useReranker : Bool) (queryText : String)
    (topK : Option Nat) (rerank : Option Bool) : Except PyErr (List Node) :=
  if queryInvalid queryText then
    .error (.valueError "Query text cannot be empty")
  else
    let tk := topK.getD TOP_K
    let r := rerank.getD useReranker
    let initialK := searchInitialK tk r
    let nodes := retrieveFn initialK queryText
    if r && nodes.length > 0 then
      .ok (rerankFn queryText nodes)
    else if !r && nodes.length > tk then
      .ok (List.take tk nodes)
    else
      .ok nodes

/-- Model of `Retriever._load_index` (src/retrieval.py lines 21-65).  The two external
calls are abstracted by their outcomes: `loadResult` is what
`load_index_from_storage` does (returns an index handle or raises), and
`createResult` is what `VectorStoreIndex.from_vector_store` does.  Index
handles are abstracted as `Nat`.  Control flow follows the source exactly:
`ValueError`/`KeyError` from the load fall into the create-from-store branch,
whose own failure is re-raised as a `ValueError` telling the caller to ingest
first; any other load exception is re-raised as a different `ValueError`.
(The source message contraction "you've" is written out as "you have".) -/
def load_index (loadResult : Except PyErr Nat)
    (createResult : Except PyErr Nat) : Except PyErr Nat :=
  match loadResult with
  | .ok idx => .ok idx
  | .error (.valueError _) | .error (.keyError _) =>
    match createResult with
    | .ok idx => .ok idx
    | .error ce =>
      .error (.valueError ("No index found and vector store appears to be empty ("
        ++ pyStr ce ++ "). Please ingest at least one repository first using: python -m src.ingestion <repo_url>"))
  | .error e =>
    .error (.valueError ("Failed to load index: " ++ pyStr e
      ++ ". Make sure you have ingested at least one repository first."))

/-- Classifies an outcome by the Python exception class it carries (0 = no
exception, 1 = ValueError, 2 = KeyError, 3 = any other class).  Used to state
whether two failures are distinguishable as typed failures. -/
def errKind : Except PyErr Nat → Nat
  | .ok _ => 0
  | .error (.valueError _) => 1
  | .error (.keyError _) => 2
  | .error (.otherError _) => 3

-- src/ingestion.py: extract_repo_name (lines 15-43)

/-- Python `s.split(sep)[0]`: take up to the first occurrence of `sep`. -/
def takeUntilChar (sep : Char) (l : List Char) : List Char :=
  l.takeWhile (fun c => c ≠ sep)

/-- Python `s.split(sep)[-1]`: the segment after the last occurrence of
`sep` (the whole string when `sep` does not occur). -/
def lastSegmentAfter (sep : Char) (l : List Char) : List Char :=
  l.foldl (fun acc c => if c = sep then [] else acc ++ [c]) []

/-- Splits a list at its first colon, returning the parts before and after. -/
def splitFirstColon : List Char → Option (List Char × List Char)
  | [] => none
  | c :: rest =>
    if c = ':' then some ([], rest)
    else (splitFirstColon rest).map (fun p => (c :: p.1, p.2))

/-- Characters allowed in a URL scheme after the leading letter
(urllib scheme_chars). -/
def isSchemeChar (c : Char) : Bool :=
  c.isAlphanum || c = '+' || c = '-' || c = '.'

/-- The `path` component of `urllib.parse.urlparse`, for inputs containing
no query or fragment markers (the caller strips those first): an initial
valid scheme followed by a colon is removed; a `//netloc` part, when
present, extends up to the next slash; the remainder is the path. -/
def urlparsePath (s : List Char) : List Char :=
  let afterScheme :=
    match splitFirstColon s with
    | some (before, after) =>
      match before with
      | [] => s
      | b :: bs => if b.isAlpha && (bs.all isSchemeChar) then after else s
    | none => s
  match afterScheme with
  | '/' :: '/' :: rest => rest.dropWhile (fun c => c ≠ '/')
  | other => other

/-- Python `s.strip('/')`. -/
def stripSlashes (l : List Char) : List Char :=
  ((l.dropWhile (fun c => c = '/')).reverse.dropWhile (fun c => c = '/')).reverse

/-- Python `s.replace(".git", "")`: removes every non-overlapping occurrence
of `.git`, scanning left to right (src/ingestion.py line 32). -/
def removeGit : List Char → List Char
  | '.' :: 'g' :: 'i' :: 't' :: rest => removeGit rest
  | c :: rest => c :: removeGit rest
  | [] => []

/-- The characters the sanitizing step replaces: the regex class
of invalid path characters in src/ingestion.py line 38. -/
def isInvalidPathChar (c : Char) : Bool :=
  c = '<' || c = '>' || c = ':' || c = '\"' || c = '|' || c = '?' || c = '*'

/-- Python `re.sub(r'[<>:"|?*]', '_', s)`. -/
def sanitizeName (l : List Char) : List Char :=
  l.map (fun c => if isInvalidPathChar c then '_' else c)

/-- Python `s.startswith("git@")`. -/
def isGitAt : List Char → Bool
  | 'g' :: 'i' :: 't' :: '@' :: _ => true
  | _ => false

/-- Model of `extract_repo_name` (src/ingestion.py lines 15-43): strip query and
fragment, take the path (after the colon for SSH URLs), remove `.git`
occurrences, keep the last slash-separated segment, replace invalid path
characters with underscores, and raise `ValueError` when the result is
empty. -/
def extract_repo_name (repoUrl : String) : Except PyErr String :=
  let u := takeUntilChar '#' (takeUntilChar '?' repoUrl.data)
  let repoName0 :=
    if isGitAt u then lastSegmentAfter ':' u
    else stripSlashes (urlparsePath u)
  let repoName := sanitizeName (lastSegmentAfter '/' (removeGit repoName0))
  if repoName.isEmpty then
    .error (.valueError ("Could not extract repository name from URL: " ++ repoUrl))
  else
    .ok (String.mk repoName)

-- src/ingestion.py: get_language_from_extension (lines 97-124)

/-- ASCII lowering of one character, as Python `str.lower()` acts on the
ASCII extensions this program maps. -/
def pyLowerChar (c : Char) : Char :=
  if 65 ≤ c.toNat && c.toNat ≤ 90 then Char.ofNat (c.toNat + 32) else c

/-- Python `s.lower()` restricted to ASCII input. -/
def pyLower (s : String) : String :=
  String.mk (s.data.map pyLowerChar)

/-- The `language_map` dict literal (src/ingestion.py lines 102-123),
in source order. -/
def language_map : List (String × String) :=
  [(".py", "python"), (".js", "javascript"), (".ts", "typescript"),
   (".jsx", "javascript"), (".tsx", "typescript"), (".java", "java"),
   (".go", "go"), (".rs", "rust"), (".cpp", "cpp"), (".c", "c"),
   (".h", "c"), (".hpp", "cpp"), (".cs", "csharp"), (".php", "php"),
   (".rb", "ruby"), (".swift", "swift"), (".kt", "kotlin"),
   (".scala", "scala"), (".r", "r"), (".R", "r")]

/-- Model of `get_language_from_extension` (src/ingestion.py lines 97-124):
`language_map.get(ext.lower(), "python")`. -/
def get_language_from_extension (ext : String) : String :=
  (language_map.lookup (pyLower ext)).getD "python"

-- src/ingestion.py: parse_code_files (lines 127-251)

/-- The `supported_extensions` set literal (src/ingestion.py lines 146-151). -/
def supported_extensions : List String :=
  [".py", ".js", ".ts", ".jsx", ".tsx", ".java", ".go", ".rs",
   ".cpp", ".c", ".h", ".hpp", ".cs", ".php", ".rb", ".swift",
   ".kt", ".scala", ".r", ".R", ".md", ".txt", ".json", ".yaml",
   ".yml", ".xml", ".html", ".css", ".scss", ".sass", ".sh", ".bash"]

/-- The `skip_files` set literal (src/ingestion.py lines 154-160). -/
def skip_files : List String :=
  ["package-lock.json", "yarn.lock", "pnpm-lock.yaml", "composer.lock",
   "poetry.lock", "Pipfile.lock", "go.sum", "Cargo.lock",
   "requirements.txt", "requirements-dev.txt",
   ".gitignore", ".gitattributes", ".editorconfig",
   "tsconfig.json", "jsconfig.json"]

/-- Outcome of `reader.load_data` on one file: the decoded content, a
`UnicodeDecodeError`, or any other read exception. -/
inductive ReadResult where
  | ok (content : String)
  | unicodeError
  | otherError (msg : String)
deriving DecidableEq

/-- One file met during the `os.walk` traversal, abstracted by the data the
per-file loop body consumes: its base name, the outcome of
`file_path.stat().st_size` (`none` models the `OSError` branch), and the
outcome of reading it. -/
structure FileEntry where
  fileName : String
  statSize : Option Nat
  readResult : ReadResult
deriving DecidableEq

/-- Python `pathlib.PurePath.suffix` of a base name: the part from the last dot on,
provided that dot is neither the first nor the last character; otherwise
the empty string. -/
def pySuffix (name : String) : String :=
  let rev := name.data.reverse
  let afterRev := rev.takeWhile (fun c => c ≠ '.')
  match rev.dropWhile (fun c => c ≠ '.') with
  | '.' :: pre => if !pre.isEmpty && !afterRev.isEmpty
                  then String.mk ('.' :: afterRev.reverse) else ""
  | _ => ""

/-- Python `file.startswith('.')`. -/
def isHidden (name : String) : Bool :=
  match name.data with
  | '.' :: _ => true
  | _ => false

/-- Python `file.endswith('.lock')`. -/
def endsWithLock (name : String) : Bool :=
  match name.data.reverse with
  | 'k' :: 'c' :: 'o' :: 'l' :: '.' :: _ => true
  | _ => false

/-- What the per-file loop body of `parse_code_files` does with one file;
the constructors name the `continue` sites in source order
(src/ingestion.py lines 181-245). -/
inductive FileOutcome where
  | hiddenSkip
  | knownFileSkip
  | lockSkip
  | extensionSkip
  | statErrorSkip
  | sizeSkip
  | decodeSkip
  | readErrorSkip
  | processed
deriving DecidableEq

/-- The byte ceiling `max_file_size_mb * 1024 * 1024` for the default 5.0 MB. -/
def MAX_FILE_SIZE_BYTES : Nat := 5 * 1024 * 1024

/-- The decision sequence of the per-file loop body (src/ingestion.py
lines 181-245): hidden files, known generated files, `.lock` files,
unsupported extensions, the size check (whose `stat` may raise `OSError`),
then the read with its two exception handlers. -/
def fileStep (maxBytes : Nat) (f : FileEntry) : FileOutcome :=
  if isHidden f.fileName then .hiddenSkip
  else if f.fileName ∈ skip_files then .knownFileSkip
  else if endsWithLock f.fileName then .lockSkip
  else if pySuffix f.fileName ∉ supported_extensions then .extensionSkip
  else
    match f.statSize with
    | none => .statErrorSkip
    | some size =>
      if size > maxBytes then .sizeSkip
      else
        match f.readResult with
        | .ok _ => .processed
        | .unicodeError => .decodeSkip
        | .otherError _ => .readErrorSkip

/-- Which outcomes increment `files_skipped` in the source: the hidden-file,
extension, and stat-`OSError` branches `continue` without counting. -/
def skipCounted : FileOutcome → Bool
  | .knownFileSkip => true
  | .lockSkip => true
  | .sizeSkip => true
  | .decodeSkip => true
  | .readErrorSkip => true
  | _ => false

/-- A harvested document (llama-index `Document` plus the metadata stamped
in src/ingestion.py lines 228-235; the path fields derived from the repo
root are not modelled, no claim concerns them). -/
structure Document where
  fileName : String
  content : String
  language : String
deriving DecidableEq

/-- Content carried by a successful read. -/
def readContent : ReadResult → String
  | .ok c => c
  | _ => ""

/-- The document built for one successfully read file (src/ingestion.py
lines 214-235): `FlatReader` yields one document per file, stamped with the
language inferred from the file suffix. -/
def mkDocument (f : FileEntry) : Document :=
  { fileName := f.fileName
    content := readContent f.readResult
    language := get_language_from_extension (pySuffix f.fileName) }

/-- Model of `parse_code_files` (src/ingestion.py lines 127-251) over the abstracted
walk order: returns the harvested documents, `files_processed`, and
`files_skipped`. -/
def parse_code_files (maxBytes : Nat) :
    List FileEntry → List Document × Nat × Nat
  | [] => ([], 0, 0)
  | f :: fs =>
    let rest := parse_code_files maxBytes fs
    match fileStep maxBytes f with
    | .processed => (mkDocument f :: rest.1, rest.2.1 + 1, rest.2.2)
    | o => (rest.1, rest.2.1, if skipCounted o then rest.2.2 + 1 else rest.2.2)

-- src/ingestion.py: chunk_documents_by_language (lines 253-341)

/-- The `parser_lang_map` dict literal (src/ingestion.py lines 271-281),
mapping internal language names to tree-sitter grammar identifiers; note
the irregular `csharp` to `c_sharp` entry. -/
def parser_lang_map : List (String × String) :=
  [("python", "python"), ("javascript", "javascript"),
   ("typescript", "typescript"), ("java", "java"), ("go", "go"),
   ("rust", "rust"), ("cpp", "cpp"), ("c", "c"), ("csharp", "c_sharp")]

/-- The set `ast_supported_langs = set(parser_lang_map.keys())`
(src/ingestion.py line 284). -/
def ast_supported_langs : List String :=
  parser_lang_map.map Prod.fst

/-- The keyword arguments of the `CodeSplitter` constructor call
(src/ingestion.py lines 307-313). -/
structure SplitParams where
  chunkLines : Nat
  chunkLinesOverlap : Nat
  maxChars : Nat
deriving DecidableEq

/-- The keyword arguments of `SimpleNodeParser.from_defaults`
(src/ingestion.py lines 321-324 and 333-336). -/
structure TextSplitParams where
  chunkSize : Nat
  chunkOverlap : Nat
deriving DecidableEq

/-- One step of building `docs_by_lang`: append the document to its
language's list, creating the entry on first sight (Python dicts preserve
insertion order; src/ingestion.py lines 287-292). -/
def addToGroups (groups : List (String × List Document)) (lang : String)
    (d : Document) : List (String × List Document) :=
  match groups with
  | [] => [(lang, [d])]
  | (l, ds) :: rest =>
    if l = lang then (l, ds ++ [d]) :: rest
    else (l, ds) :: addToGroups rest lang d

/-- The grouping `docs_by_lang` (src/ingestion.py lines 287-292).  Every modelled
document carries a `language` field, so the `metadata.get` default never
fires. -/
def docs_by_lang (documents : List Document) : List (String × List Document) :=
  documents.foldl (fun gs d => addToGroups gs d.language d) []

/-- The documents appearing across all language groups, in group order. -/
def groupedDocs (gs : List (String × List Document)) : List Document :=
  (gs.map Prod.snd).flatten

/-- The per-language body of the processing loop (src/ingestion.py lines
297-339).  `structSplit` abstracts `get_parser` plus
`CodeSplitter(...).get_nodes_from_documents` (either of which may raise),
applied to the grammar identifier and the constructor arguments;
`textSplit` abstracts `SimpleNodeParser.from_defaults(...).
get_nodes_from_documents`, which the source never guards with a handler. -/
def processLangGroup
    (structSplit : String → SplitParams → List Document → Except PyErr (List Node))
    (textSplit : TextSplitParams → List Document → List Node)
    (lang : String) (langDocs : List Document) : List Node :=
  if lang ∈ ast_supported_langs then
    match structSplit ((parser_lang_map.lookup lang).getD lang)
        ⟨40, 10, 3000⟩ langDocs with
    | .ok nodes => nodes
    | .error _ => textSplit ⟨1024, 200⟩ langDocs
  else
    textSplit ⟨1024, 200⟩ langDocs

/-- Model of `chunk_documents_by_language` (src/ingestion.py lines 253-341):
group by language, then concatenate each group's nodes. -/
def chunk_documents_by_language
    (structSplit : String → SplitParams → List Document → Except PyErr (List Node))
    (textSplit : TextSplitParams → List Document → List Node)
    (documents : List Document) : List Node :=
  (docs_by_lang documents).foldl
    (fun acc g => acc ++ processLangGroup structSplit textSplit g.1 g.2) []

/-- Example text splitter used to observe which documents reach a splitter:
one node per input document, carrying its content. -/
def exTextSplit (_p : TextSplitParams) (ds : List Document) : List Node :=
  ds.map (fun d => ⟨d.content⟩)

/-- Example structural splitter that always fails, standing in for a
language group whose parse raises. -/
def exStructFail (_plang : String) (_p : SplitParams)
    (_ds : List Document) : Except PyErr (List Node) :=
  .error (.otherError "tree-sitter parse failed")

/-- Example structural splitter that succeeds, one node per document. -/
def exStructOk (_plang : String) (_p : SplitParams)
    (ds : List Document) : Except PyErr (List Node) :=
  .ok (ds.map (fun d => ⟨d.content⟩))

-- Spec model of the structural splitter

/-- Split a character list into its lines at newline characters (a text with
no newline is one line; a trailing newline yields a final empty line). -/
def splitOnNl : List Char → List (List Char)
  | [] => [[]]
  | c :: rest =>
    if c = '\n' then [] :: splitOnNl rest
    else
      match splitOnNl rest with
      | [] => [[c]]
      | g :: gs => (c :: g) :: gs

/-- Rejoin lines with newline separators. -/
def joinLines : List (List Char) → List Char
  | [] => []
  | [l] => l
  | l :: ls => l ++ '\n' :: joinLines ls

/-- Sliding line windows of `size` lines advancing by `step` lines; the
fuel argument (instantiated with the line count) bounds the recursion. -/
def windowAux : Nat → Nat → Nat → List (List Char) → List (List (List Char))
  | 0, _, _, _ => []
  | _, _, _, [] => []
  | fuel + 1, size, step, ls => ls.take size :: windowAux fuel size step (ls.drop step)

/-- Break a character list into pieces of at most `m` characters; the fuel
argument (instantiated with the list length) bounds the recursion. -/
def chunksOfMaxAux : Nat → Nat → List Char → List (List Char)
  | 0, _, _ => []
  | _, _, [] => []
  | fuel + 1, m, cs => cs.take m :: chunksOfMaxAux fuel m (cs.drop m)

/-- Modelled from the spec: the structural splitter itself (llama-index
`CodeSplitter.get_nodes_from_documents` driven by a tree-sitter grammar) is
not part of this repository's sources; only its constructor arguments are.
Following the spec's description of structural splitting — a target chunk
size in source lines, an inter-chunk overlap in lines, and a hard maximum
character count per chunk that must never be exceeded even if a structural
unit has to be broken — this model cuts the text into line windows of
`chunkLines` lines overlapping by `chunkLinesOverlap` lines and then breaks
any window exceeding `maxChars` characters. -/
def specCodeSplit (p : SplitParams) (text : List Char) : List (List Char) :=
  let ls := splitOnNl text
  let step := max (p.chunkLines - p.chunkLinesOverlap) 1
  let ws := windowAux ls.length p.chunkLines step ls
  ((ws.map joinLines).map (fun g => chunksOfMaxAux g.length p.maxChars g)).flatten

/-- The spec-modelled structural splitter packaged with the interface the
chunking loop expects: one run of `specCodeSplit` per document. -/
def specStructSplit (_plang : String) (p : SplitParams)
    (ds : List Document) : Except PyErr (List Node) :=
  .ok ((ds.map (fun d =>
    (specCodeSplit p d.content.data).map (fun t => Node.mk (String.mk t)))).flatten)

-- Claim theorems

/-- Claim C1: for every search call, the stage-1 vector-search candidate
count equals `requestedTopK * 2` when reranking is enabled and
`requestedTopK` when it is disabled; with `requestedTopK = 5` the internal
candidate count is 10 with reranking and 5 without; the defaults are
`TOP_K = 15` and `RERANK_TOP_K = 5`.  The concrete `search` runs use a
store returning exactly as many nodes as it is asked for, so the result
length exhibits the stage-1 candidate count actually requested. -/
theorem retriever_candidate_count :
    (∀ tk, searchInitialK tk true = tk * 2)
    ∧ (∀ tk, searchInitialK tk false = tk)
    ∧ searchInitialK 5 true = 10
    ∧ searchInitialK 5 false = 5
    ∧ TOP_K = 15
    ∧ RERANK_TOP_K = 5
    ∧ search (fun k _ => List.replicate k ⟨"c"⟩) (fun _ ns => ns) true "q" (some 5) (some true)
        = .ok (List.replicate 10 ⟨"c"⟩)
    ∧ search (fun k _ => List.replicate k ⟨"c"⟩) (fun _ ns => ns) true "q" (some 5) (some false)
        = .ok (List.replicate 5 ⟨"c"⟩)
    ∧ search (fun k _ => List.replicate k ⟨"c"⟩) (fun _ ns => ns) true "q" none (some false)
        = .ok (List.replicate 15 ⟨"c"⟩)
    ∧ search (fun k _ => List.replicate k ⟨"c"⟩) (fun _ ns => ns) true "q" none none
        = .ok (List.replicate 30 ⟨"c"⟩) :=
  ⟨fun _ => rfl, fun _ => rfl, rfl, rfl, rfl, rfl, rfl, rfl, rfl, rfl⟩

/-- Claim C2 counterexample: the "empty index" failure is not a distinct
typed failure.  Both the empty-collection load (index metadata missing and
the rebuild from the store failing) and an unrelated corrupt-metadata load
raise the same exception class, `ValueError` (`errKind = 1`); the two are
told apart only by message text. -/
theorem load_failure_types_cex :
    errKind (load_index (.error (.keyError "index_store not found"))
      (.error (.otherError "collection is empty"))) = 1
    ∧ errKind (load_index (.error (.otherError "corrupt metadata")) (.ok 0)) = 1 :=
  ⟨rfl, rfl⟩

/-- Claim C2 amended: loading over an empty collection fails with a
`ValueError` whose message says the store appears empty and that ingestion
must run first; other load failures also surface as `ValueError`, so the
two conditions are distinguished only by message text, not by exception
type; and when index metadata is merely missing (`ValueError`/`KeyError`
from the loader) but the collection has data, the load reconstructs the
index directly from the vector store. -/
theorem load_index_amended :
    (∀ m ce, load_index (.error (.keyError m)) (.error ce)
        = .error (.valueError ("No index found and vector store appears to be empty ("
            ++ pyStr ce ++ "). Please ingest at least one repository first using: python -m src.ingestion <repo_url>")))
    ∧ (∀ m ce, load_index (.error (.valueError m)) (.error ce)
        = .error (.valueError ("No index found and vector store appears to be empty ("
            ++ pyStr ce ++ "). Please ingest at least one repository first using: python -m src.ingestion <repo_url>")))
    ∧ (∀ m idx, load_index (.error (.keyError m)) (.ok idx) = .ok idx)
    ∧ (∀ m idx, load_index (.error (.valueError m)) (.ok idx) = .ok idx)
    ∧ (∀ m c, load_index (.error (.otherError m)) c
        = .error (.valueError ("Failed to load index: " ++ m
            ++ ". Make sure you have ingested at least one repository first.")))
    ∧ (∀ idx c, load_index (.ok idx) c = .ok idx) :=
  ⟨fun _ _ => rfl, fun _ _ => rfl, fun _ _ => rfl, fun _ _ => rfl,
   fun _ _ => rfl, fun _ _ => rfl⟩

/-- Claim C3: every empty or whitespace-only query makes `search` fail with
the input `ValueError` for every possible store and reranker — the result
does not depend on `retrieveFn`, so the failure happens before any vector
store access and with no partial side effects — and every query that passes
the emptiness check proceeds to a successful search. -/
theorem empty_query_rejected :
    (∀ rf rr u tk r q, queryInvalid q = true →
        search rf rr u q tk r = .error (.valueError "Query text cannot be empty"))
    ∧ (∀ rf rr u tk r q, queryInvalid q = false → (search rf rr u q tk r).isOk = true)
    ∧ queryInvalid "" = true
    ∧ queryInvalid "   " = true
    ∧ queryInvalid "\t \n" = true
    ∧ queryInvalid "how" = false := by
  refine ⟨?_, ?_, by decide, by decide, by decide, by decide⟩
  · intro rf rr u tk r q h
    simp [search, h]
  · intro rf rr u tk r q h
    simp only [search, h, Bool.false_eq_true, if_false]
    split
    · rfl
    · split <;> rfl

/-- Witness for C3 at concrete inputs. -/
theorem empty_query_rejected_witness :
    search (fun k _ => List.replicate k ⟨"c"⟩) (fun _ ns => ns) true "   " none none
      = .error (.valueError "Query text cannot be empty")
    ∧ (search (fun k _ => List.replicate k ⟨"c"⟩) (fun _ ns => ns) true "how" none none).isOk
      = true :=
  ⟨empty_query_rejected.1 _ _ _ _ _ _ (by decide),
   empty_query_rejected.2.1 _ _ _ _ _ _ (by decide)⟩

/-- Claim C8: the extension-to-language mapping is total — any extension
whose lowercased form is a key of `language_map` gets that key's language
(case-insensitive matching), every other extension gets the fallback
`"python"`, each entry of the source dict maps as written, and non-code
extensions such as `.md`, `.txt`, `.json` receive the fallback. -/
theorem extension_language_total :
    (∀ ext v, language_map.lookup (pyLower ext) = some v →
        get_language_from_extension ext = v)
    ∧ (∀ ext, language_map.lookup (pyLower ext) = none →
        get_language_from_extension ext = "python")
    ∧ (get_language_from_extension ".py" = "python"
      ∧ get_language_from_extension ".js" = "javascript"
      ∧ get_language_from_extension ".ts" = "typescript"
      ∧ get_language_from_extension ".jsx" = "javascript"
      ∧ get_language_from_extension ".tsx" = "typescript"
      ∧ get_language_from_extension ".java" = "java"
      ∧ get_language_from_extension ".go" = "go"
      ∧ get_language_from_extension ".rs" = "rust"
      ∧ get_language_from_extension ".cpp" = "cpp"
      ∧ get_language_from_extension ".c" = "c"
      ∧ get_language_from_extension ".h" = "c"
      ∧ get_language_from_extension ".hpp" = "cpp"
      ∧ get_language_from_extension ".cs" = "csharp"
      ∧ get_language_from_extension ".php" = "php"
      ∧ get_language_from_extension ".rb" = "ruby"
      ∧ get_language_from_extension ".swift" = "swift"
      ∧ get_language_from_extension ".kt" = "kotlin"
      ∧ get_language_from_extension ".scala" = "scala"
      ∧ get_language_from_extension ".r" = "r"
      ∧ get_language_from_extension ".R" = "r")
    ∧ (get_language_from_extension ".PY" = "python"
      ∧ get_language_from_extension ".Js" = "javascript"
      ∧ get_language_from_extension ".JAVA" = "java")
    ∧ (get_language_from_extension ".md" = "python"
      ∧ get_language_from_extension ".txt" = "python"
      ∧ get_language_from_extension ".json" = "python"
      ∧ get_language_from_extension ".yaml" = "python"
      ∧ get_language_from_extension "" = "python") := by
  refine ⟨?_, ?_, by decide, by decide, by decide⟩
  · intro ext v h
    simp [get_language_from_extension, h]
  · intro ext h
    simp [get_language_from_extension, h]

/-- Witness for C8: a mapped extension in uppercase and an unmapped one. -/
theorem extension_language_total_witness :
    get_language_from_extension ".KT" = "kotlin"
    ∧ get_language_from_extension ".xyz" = "python" :=
  ⟨extension_language_total.1 ".KT" "kotlin" (by decide),
   extension_language_total.2.1 ".xyz" (by decide)⟩

/-- The final guard of `extract_repo_name`: whenever it returns a name,
that name is the non-empty sanitized list. -/
theorem sanitize_ok_helper (a : List Char) (msg name : String)
    (h : (if (sanitizeName a).isEmpty = true
          then Except.error (PyErr.valueError msg)
          else Except.ok (String.mk (sanitizeName a))) = Except.ok name) :
    0 < name.length ∧ name.data.all (fun c => !isInvalidPathChar c) = true := by
  split at h
  · exact absurd h (by simp)
  · rename_i hne
    rw [Except.ok.injEq] at h
    subst h
    constructor
    · have hnil : sanitizeName a ≠ [] := by
        intro hq
        exact hne (by simp [hq])
      simpa [String.length] using List.length_pos.mpr hnil
    · show (sanitizeName a).all (fun c => !isInvalidPathChar c) = true
      simp only [sanitizeName, List.all_map]
      apply List.all_eq_true.mpr
      intro c _
      by_cases hc : isInvalidPathChar c = true
      · simp only [Function.comp, hc, if_true]
        decide
      · simp only [Bool.not_eq_true] at hc
        simp [Function.comp, hc]

/-- Claim C9: `extract_repo_name` either returns a non-empty name in which
every occurrence of the invalid path characters has been replaced by an
underscore, or raises `ValueError`; the `.git` removal applies to every
occurrence of the substring, not only a trailing suffix, so a repository
named `my.github-tools` comes back as `myhub-tools`. -/
theorem repo_name_sanitized :
    (∀ url name, extract_repo_name url = .ok name →
        0 < name.length ∧ name.data.all (fun c => !isInvalidPathChar c) = true)
    ∧ extract_repo_name "https://github.com/user/my.github-tools" = .ok "myhub-tools"
    ∧ extract_repo_name "https://github.com/user/repo.git" = .ok "repo"
    ∧ extract_repo_name "git@github.com:user/repo.git" = .ok "repo"
    ∧ extract_repo_name "https://github.com/user/repo" = .ok "repo"
    ∧ extract_repo_name "https://github.com"
        = .error (.valueError "Could not extract repository name from URL: https://github.com") := by
  refine ⟨?_, rfl, rfl, rfl, rfl, rfl⟩
  intro url name h
  simp only [extract_repo_name] at h
  exact sanitize_ok_helper _ _ _ h

/-- Witness for C9 at a concrete URL. -/
theorem repo_name_sanitized_witness :
    0 < "myhub-tools".length
    ∧ "myhub-tools".data.all (fun c => !isInvalidPathChar c) = true :=
  repo_name_sanitized.1 "https://github.com/user/my.github-tools" "myhub-tools" rfl

/-- The harvested document list is exactly the processed files' documents,
in traversal order: per-file failures remove single files, never abort. -/
theorem parse_docs_characterization (maxB : Nat) (fs : List FileEntry) :
    (parse_code_files maxB fs).1
      = (fs.filter (fun f => fileStep maxB f == FileOutcome.processed)).map mkDocument := by
  induction fs with
  | nil => rfl
  | cons f fs ih =>
    cases h : fileStep maxB f <;>
      simp [parse_code_files, h, ih, List.filter_cons]

/-- `files_skipped` counts exactly the files whose outcome is one of the
counted skip branches. -/
theorem parse_skipped_characterization (maxB : Nat) (fs : List FileEntry) :
    (parse_code_files maxB fs).2.2
      = (fs.filter (fun f => skipCounted (fileStep maxB f))).length := by
  induction fs with
  | nil => rfl
  | cons f fs ih =>
    cases h : fileStep maxB f <;>
      simp [parse_code_files, h, ih, List.filter_cons, skipCounted]

/-- Claim C7 counterexample: a file whose size check itself fails (`stat`
raising `OSError`) is skipped silently — `files_skipped` stays 0 — so not
every per-file read error is counted and reported as the claim states. -/
theorem statfail_skip_uncounted_cex :
    fileStep MAX_FILE_SIZE_BYTES ⟨"main.py", none, .ok "print(1)"⟩
      = .statErrorSkip
    ∧ parse_code_files MAX_FILE_SIZE_BYTES [⟨"main.py", none, .ok "print(1)"⟩]
      = ([], 0, 0) := by
  constructor
  · rfl
  · rfl

/-- Claim C7 amended: oversized files, undecodable files, and files whose
content read raises are each skipped and counted in `files_skipped`; a file
whose `stat` size check raises `OSError` is skipped without being counted;
harvesting never aborts on a per-file failure and always returns exactly
the documents of the successfully read files. -/
theorem harvest_skip_accounting :
    (∀ maxB fs, (parse_code_files maxB fs).1
        = (fs.filter (fun f => fileStep maxB f == FileOutcome.processed)).map mkDocument)
    ∧ (∀ maxB fs, (parse_code_files maxB fs).2.2
        = (fs.filter (fun f => skipCounted (fileStep maxB f))).length)
    ∧ fileStep MAX_FILE_SIZE_BYTES ⟨"big.py", some 5242881, .ok "x"⟩ = .sizeSkip
    ∧ fileStep MAX_FILE_SIZE_BYTES ⟨"img.py", some 10, .unicodeError⟩ = .decodeSkip
    ∧ fileStep MAX_FILE_SIZE_BYTES ⟨"locked.py", some 10, .otherError "permission denied"⟩
        = .readErrorSkip
    ∧ fileStep MAX_FILE_SIZE_BYTES ⟨"gone.py", none, .ok ""⟩ = .statErrorSkip
    ∧ fileStep MAX_FILE_SIZE_BYTES ⟨"ok.py", some 10, .ok "x = 1"⟩ = .processed
    ∧ skipCounted .sizeSkip = true
    ∧ skipCounted .decodeSkip = true
    ∧ skipCounted .readErrorSkip = true
    ∧ skipCounted .statErrorSkip = false :=
  ⟨parse_docs_characterization, parse_skipped_characterization,
   rfl, rfl, rfl, rfl, rfl, rfl, rfl, rfl, rfl⟩

/-- Claim C10 counterexample: a lock file whose name starts with a dot,
such as `.cache.lock`, ends in `.lock` and indeed never produces a
document, but the hidden-file check skips it first without incrementing
the skipped-files count — the count stays 0, not 1. -/
theorem hidden_lock_uncounted_cex :
    endsWithLock ".cache.lock" = true
    ∧ fileStep MAX_FILE_SIZE_BYTES ⟨".cache.lock", some 10, .ok "x"⟩ = .hiddenSkip
    ∧ parse_code_files MAX_FILE_SIZE_BYTES [⟨".cache.lock", some 10, .ok "x"⟩]
      = ([], 0, 0) := by
  refine ⟨rfl, rfl, rfl⟩

/-- Claim C10 amended: the named dependency/config files, the known lock
files, and every non-hidden file ending in `.lock` are skipped with the
skipped-files count incremented, and never produce a document, even though
`.txt` and `.json` are in the supported-extension allow-list; a file ending
in `.lock` whose name starts with a dot is instead skipped by the
hidden-file check without incrementing the count. -/
theorem skip_list_behavior :
    (∀ st rr, fileStep MAX_FILE_SIZE_BYTES ⟨"requirements.txt", st, rr⟩ = .knownFileSkip)
    ∧ (∀ st rr, fileStep MAX_FILE_SIZE_BYTES ⟨"requirements-dev.txt", st, rr⟩ = .knownFileSkip)
    ∧ (∀ st rr, fileStep MAX_FILE_SIZE_BYTES ⟨"tsconfig.json", st, rr⟩ = .knownFileSkip)
    ∧ (∀ st rr, fileStep MAX_FILE_SIZE_BYTES ⟨"jsconfig.json", st, rr⟩ = .knownFileSkip)
    ∧ (∀ st rr, fileStep MAX_FILE_SIZE_BYTES ⟨"package-lock.json", st, rr⟩ = .knownFileSkip)
    ∧ (∀ st rr, fileStep MAX_FILE_SIZE_BYTES ⟨"yarn.lock", st, rr⟩ = .knownFileSkip)
    ∧ (∀ f, isHidden f.fileName = false → f.fileName ∉ skip_files →
        endsWithLock f.fileName = true →
        fileStep MAX_FILE_SIZE_BYTES f = .lockSkip)
    ∧ skipCounted .knownFileSkip = true
    ∧ skipCounted .lockSkip = true
    ∧ ".txt" ∈ supported_extensions
    ∧ ".json" ∈ supported_extensions
    ∧ (∀ maxB fs, (parse_code_files maxB fs).1
        = (fs.filter (fun f => fileStep maxB f == FileOutcome.processed)).map mkDocument) := by
  refine ⟨fun st rr => rfl, fun st rr => rfl, fun st rr => rfl, fun st rr => rfl,
    fun st rr => rfl, fun st rr => rfl, ?_, rfl, rfl, by decide, by decide,
    parse_docs_characterization⟩
  intro f h1 h2 h3
  simp [fileStep, h1, h2, h3]

/-- Witness for C10 at a concrete non-hidden lock file not in the skip
list. -/
theorem skip_list_behavior_witness :
    fileStep MAX_FILE_SIZE_BYTES ⟨"custom.lock", some 10, .ok "x"⟩ = .lockSkip :=
  skip_list_behavior.2.2.2.2.2.2.1 ⟨"custom.lock", some 10, .ok "x"⟩
    (by decide) (by decide) (by decide)

/-- Membership across groups after inserting one document. -/
theorem mem_groupedDocs_addToGroups (gs : List (String × List Document))
    (lang : String) (d x : Document) :
    x ∈ groupedDocs (addToGroups gs lang d) ↔ x ∈ groupedDocs gs ∨ x = d := by
  induction gs with
  | nil => simp [addToGroups, groupedDocs]
  | cons g rest ih =>
    obtain ⟨l, ds⟩ := g
    by_cases h : l = lang
    · simp only [addToGroups, h, if_true, groupedDocs, List.map_cons,
        List.flatten_cons, List.mem_append, List.mem_singleton]
      tauto
    · simp only [addToGroups, h, if_false, groupedDocs, List.map_cons,
        List.flatten_cons, List.mem_append]
      simp only [groupedDocs] at ih
      rw [ih]
      tauto

/-- Folding the grouping step over a document list keeps every already
grouped document and adds every document of the list. -/
theorem mem_groupedDocs_fold (documents : List Document) :
    ∀ gs x, x ∈ groupedDocs gs ∨ x ∈ documents →
      x ∈ groupedDocs (documents.foldl (fun a d => addToGroups a d.language d) gs) := by
  induction documents with
  | nil =>
    intro gs x h
    simpa using h
  | cons d ds ih =>
    intro gs x h
    simp only [List.foldl_cons]
    apply ih
    rcases h with h | h
    · exact Or.inl ((mem_groupedDocs_addToGroups gs d.language d x).mpr (Or.inl h))
    · rcases List.mem_cons.mp h with h | h
      · exact Or.inl ((mem_groupedDocs_addToGroups gs d.language d x).mpr (Or.inr h))
      · exact Or.inr h

/-- Claim C4 counterexample: a document with empty (or whitespace-only)
content is not dropped before splitting — it is grouped under its language
and handed to the splitter like any other document, and the pipeline keeps
no dropped-document count.  With a splitter producing one node per received
document, the empty document yields a node, which the claimed pre-drop
would make impossible. -/
theorem empty_doc_not_dropped_cex :
    docs_by_lang [⟨"e.py", "", "python"⟩]
      = [("python", [⟨"e.py", "", "python"⟩])]
    ∧ docs_by_lang [⟨"w.py", "   ", "python"⟩]
      = [("python", [⟨"w.py", "   ", "python"⟩])]
    ∧ chunk_documents_by_language exStructOk exTextSplit [⟨"e.py", "", "python"⟩]
      = [⟨""⟩] := by
  refine ⟨rfl, rfl, rfl⟩

/-- Claim C4 amended: no document is dropped before splitting — every input
document, empty or whitespace-only ones included, appears in the language
groups passed on to the splitters; the code keeps no diagnostic count of
dropped documents. -/
theorem docs_never_dropped :
    ∀ documents d, d ∈ documents → d ∈ groupedDocs (docs_by_lang documents) :=
  fun documents d h => mem_groupedDocs_fold documents [] d (Or.inr h)

/-- Witness for C4 amended: the empty document reaches its group. -/
theorem docs_never_dropped_witness :
    (⟨"e.py", "", "python"⟩ : Document)
      ∈ groupedDocs (docs_by_lang [⟨"e.py", "", "python"⟩]) :=
  docs_never_dropped [⟨"e.py", "", "python"⟩] ⟨"e.py", "", "python"⟩ (by simp)

/-- Claim C5: a language with no registered parser always goes to the
fixed-size text splitter with chunk size 1024 and overlap 200, and when the
structural split of a supported language group raises, the entire group
falls back to that same text splitter applied to the very same documents —
chunking completes and covers the same documents instead of aborting. -/
theorem chunking_fallback :
    (∀ ss ts lang ds, lang ∉ ast_supported_langs →
        processLangGroup ss ts lang ds = ts ⟨1024, 200⟩ ds)
    ∧ (∀ ss ts lang ds e, lang ∈ ast_supported_langs →
        ss ((parser_lang_map.lookup lang).getD lang) ⟨40, 10, 3000⟩ ds = .error e →
        processLangGroup ss ts lang ds = ts ⟨1024, 200⟩ ds) := by
  constructor
  · intro ss ts lang ds h
    simp [processLangGroup, h]
  · intro ss ts lang ds e h1 h2
    simp [processLangGroup, h1, h2]

/-- Witness for C5: an unsupported language, and a supported one whose
structural splitter fails. -/
theorem chunking_fallback_witness :
    processLangGroup exStructFail exTextSplit "markdown" [⟨"a.md", "hello", "markdown"⟩]
      = exTextSplit ⟨1024, 200⟩ [⟨"a.md", "hello", "markdown"⟩]
    ∧ processLangGroup exStructFail exTextSplit "python" [⟨"a.py", "x = 1", "python"⟩]
      = exTextSplit ⟨1024, 200⟩ [⟨"a.py", "x = 1", "python"⟩] :=
  ⟨chunking_fallback.1 _ _ _ _ (by decide),
   chunking_fallback.2 _ _ _ _ (PyErr.otherError "tree-sitter parse failed")
     (by decide) rfl⟩

/-- Every piece produced by the character-budget breaker fits the budget. -/
theorem length_le_of_mem_chunksOfMaxAux (fuel : Nat) :
    ∀ (m : Nat) (cs c : List Char), c ∈ chunksOfMaxAux fuel m cs → c.length ≤ m := by
  induction fuel with
  | zero =>
    intro m cs c h
    simp [chunksOfMaxAux] at h
  | succ n ih =>
    intro m cs c h
    cases cs with
    | nil => simp [chunksOfMaxAux] at h
    | cons a as =>
      simp only [chunksOfMaxAux, List.mem_cons] at h
      rcases h with h | h
      · subst h
        simp [List.length_take]
      · exact ih m _ c h

/-- The character-budget breaker emits at least one piece on non-empty
input when given positive fuel. -/
theorem chunksOfMaxAux_ne_nil (fuel m : Nat) (cs : List Char)
    (h1 : cs ≠ []) (h2 : 0 < fuel) : chunksOfMaxAux fuel m cs ≠ [] := by
  cases fuel with
  | zero => omega
  | succ n =>
    cases cs with
    | nil => exact absurd rfl h1
    | cons a as => simp [chunksOfMaxAux]

/-- Line splitting always yields at least one line. -/
theorem splitOnNl_ne_nil (cs : List Char) : splitOnNl cs ≠ [] := by
  cases cs with
  | nil => simp [splitOnNl]
  | cons c rest =>
    simp only [splitOnNl]
    split
    · simp
    · cases h : splitOnNl rest <;> simp [h]

/-- Joining at least two windowed lines of a non-empty text is non-empty. -/
theorem joinLines_take_ne_nil (cs : List Char) (k : Nat)
    (h1 : cs ≠ []) (h2 : 2 ≤ k) : joinLines ((splitOnNl cs).take k) ≠ [] := by
  obtain ⟨k2, rfl⟩ : ∃ k2, k = k2 + 2 := ⟨k - 2, by omega⟩
  cases cs with
  | nil => exact absurd rfl h1
  | cons c rest =>
    obtain ⟨g, gs, hg⟩ : ∃ g gs, splitOnNl rest = g :: gs := by
      cases h : splitOnNl rest with
      | nil => exact absurd h (splitOnNl_ne_nil rest)
      | cons g gs => exact ⟨g, gs, rfl⟩
    by_cases hc : c = '\n'
    · have : splitOnNl (c :: rest) = [] :: g :: gs := by
        simp [splitOnNl, hc, hg]
      rw [this]
      simp [List.take, joinLines]
    · have : splitOnNl (c :: rest) = (c :: g) :: gs := by
        simp [splitOnNl, hc, hg]
      rw [this]
      simp only [List.take]
      cases h : gs.take (k2 + 1) with
      | nil => simp [joinLines]
      | cons t ts => simp [joinLines]

/-- The spec-modelled structural splitter yields at least one chunk for
every non-empty text at the source's parameters. -/
theorem specCodeSplit_ne_nil (text : List Char) (h : text ≠ []) :
    specCodeSplit ⟨40, 10, 3000⟩ text ≠ [] := by
  obtain ⟨l, ls', hl⟩ : ∃ l ls', splitOnNl text = l :: ls' := by
    cases hx : splitOnNl text with
    | nil => exact absurd hx (splitOnNl_ne_nil text)
    | cons l ls' => exact ⟨l, ls', rfl⟩
  have hjoin : joinLines ((splitOnNl text).take 40) ≠ [] :=
    joinLines_take_ne_nil text 40 h (by omega)
  simp only [specCodeSplit, hl]
  simp only [List.length_cons, windowAux, List.map_cons, List.flatten_cons]
  intro hcontra
  rcases List.append_eq_nil.mp hcontra with ⟨hfirst, -⟩
  have hne : (l :: ls').take 40 = (splitOnNl text).take 40 := by rw [hl]
  rw [hne] at hfirst
  exact chunksOfMaxAux_ne_nil _ 3000 _ hjoin
    (by simpa [List.length_pos] using hjoin) hfirst

/-- Every chunk the spec-modelled structural splitter produces at the
source's parameters fits the 3000-character hard maximum. -/
theorem specCodeSplit_le (text c : List Char)
    (h : c ∈ specCodeSplit ⟨40, 10, 3000⟩ text) : c.length ≤ 3000 := by
  simp only [specCodeSplit, List.mem_flatten, List.map_map, List.mem_map] at h
  obtain ⟨piece, ⟨w, _, rfl⟩, hc⟩ := h
  exact length_le_of_mem_chunksOfMaxAux _ _ _ _ hc

/-- Claim C6: the chunking loop constructs the structural splitter with
target chunk size 40 lines, overlap 10 lines, and hard maximum 3000
characters per chunk (first conjunct: running the loop on a supported
language with the spec-modelled splitter applies exactly those parameters
to every document of the group), and at those parameters every non-empty
document yields at least one chunk and no chunk exceeds 3000 characters,
even when a line window must be broken. -/
theorem structural_chunk_bounds :
    (∀ ts ds, processLangGroup specStructSplit ts "python" ds
        = (ds.map (fun d => (specCodeSplit ⟨40, 10, 3000⟩ d.content.data).map
            (fun t => Node.mk (String.mk t)))).flatten)
    ∧ (∀ text, text ≠ [] → specCodeSplit ⟨40, 10, 3000⟩ text ≠ [])
    ∧ (∀ text c, c ∈ specCodeSplit ⟨40, 10, 3000⟩ text → c.length ≤ 3000) :=
  ⟨fun _ _ => rfl, specCodeSplit_ne_nil, specCodeSplit_le⟩

/-- Witness for C6 at a concrete two-character text. -/
theorem structural_chunk_bounds_witness :
    specCodeSplit ⟨40, 10, 3000⟩ ['a', 'b'] ≠ []
    ∧ (['a', 'b'] : List Char).length ≤ 3000 :=
  ⟨structural_chunk_bounds.2.1 ['a', 'b'] (by decide),
   structural_chunk_bounds.2.2 ['a', 'b'] ['a', 'b'] (by decide)⟩
